import Mathlib

/-!
Verification of the Visigence server's authentication, authorization,
field-whitelisting and audit-logging subsystem.

The definitions below are shallow embeddings of the JavaScript handlers in
`server/controllers/authController.js`, `server/controllers/messageController.js`,
the user controller, `server/middleware/auth.js`, `server/middleware/validation.js`
and `server/utils/auditLogger.js`.  Database reads are passed in as explicit
inputs (the row a query would return), database writes appear in the result,
and `jwt.verify` is abstracted as a three-valued outcome (valid / expired /
otherwise invalid), matching how the handlers branch on it.
-/

namespace Visigence

/-- Wire-level response: HTTP status code plus the `message` field of the JSON
error envelope (empty for success bodies that carry no `message`). -/
structure Resp where
  status : Nat
  message : String
deriving DecidableEq, Repr

/-- Outcome of a single fallible database statement, as seen by the JS
`await`: either it resolves or it rejects with an error message. -/
inductive DbResult
  | ok
  | error (msg : String)
deriving DecidableEq, Repr

/-- Acting principal attached to the request by the auth middleware
(`req.user`): its id and role, both strings in the source. -/
structure UserCtx where
  id : String
  role : String
deriving DecidableEq, Repr

/-- Row of the `messages` table, restricted to the columns the embedded
handlers read. -/
structure Msg where
  id : String
  title : String
  slug : String
  status : String
  authorId : String
  viewCount : Nat
deriving DecidableEq, Repr

/-! ## Credential service: password strength (`authController.js`, lines 57-77) -/

/-- Test for the JS regex `/[!@#$%^&*(),.?":{}|<>]/` used by
`validatePasswordStrength`. -/
def isSpecialChar (c : Char) : Bool :=
  ("!@#$%^&*(),.?\":\x7b\x7d|<>").contains c

/-- Result object of `validatePasswordStrength`: the `feedback` sub-object is
flattened into the last five fields. -/
structure PasswordValidation where
  isValid : Bool
  score : Nat
  minLengthOk : Bool
  hasLowerCase : Bool
  hasUpperCase : Bool
  hasNumbers : Bool
  hasSpecialChar : Bool
deriving DecidableEq, Repr

/-- Embedding of `validatePasswordStrength` (authController.js lines 57-77).
`/[a-z]/`, `/[A-Z]/`, `/\d/` are the ASCII classes `Char.isLower`,
`Char.isUpper`, `Char.isDigit`; `score` counts the four character-class flags
that hold (`[..].filter(Boolean).length`); `isValid` requires minimum length 8
plus lower, upper and digit, and does not consult the special-character flag. -/
def validatePasswordStrength (password : String) : PasswordValidation :=
  let minLength := 8
  let hasLowerCase := password.data.any Char.isLower
  let hasUpperCase := password.data.any Char.isUpper
  let hasNumbers := password.data.any Char.isDigit
  let hasSpecialChar := password.data.any isSpecialChar
  ⟨decide (minLength ≤ password.length) && hasLowerCase && hasUpperCase && hasNumbers,
   ([hasLowerCase, hasUpperCase, hasNumbers, hasSpecialChar].filter (fun b => b)).length,
   decide (minLength ≤ password.length),
   hasLowerCase, hasUpperCase, hasNumbers, hasSpecialChar⟩

/-! ## Audit trail recorder (`utils/auditLogger.js`, lines 14-40) -/

/-- Embedding of `createAuditLog`: the `INSERT INTO audit_logs` statement is
the `insert` input.  The body is one try/catch: on failure the error is
written to the console log (second component) and NOT rethrown, so the value
observed by the caller (first component) is a normal return in both cases. -/
def createAuditLog (insert : DbResult) : DbResult × List String :=
  match insert with
  | .ok => (.ok, [])
  | .error e => (.ok, ["Failed to create audit log: " ++ e])

/-- Embedding of `deleteMessage` (messageController.js lines 637-707) as a
representative business operation that invokes the audit writer: fetch row,
permission check, `DELETE` statement, audit write, respond.  Any exception
escaping into the handler's catch produces the 500 response, so if
`createAuditLog` re-raised its error the success response would be lost. -/
def deleteMessage (fetched : Option Msg) (caller : UserCtx)
    (deleteStmt : DbResult) (auditInsert : DbResult) : Resp × List String :=
  match fetched with
  | none => (⟨404, "Message not found"⟩, [])
  | some m =>
    if caller.role == "admin" || caller.role == "moderator" || caller.id == m.authorId then
      match deleteStmt with
      | .error _ => (⟨500, "Internal server error"⟩, [])
      | .ok =>
        match createAuditLog auditInsert with
        | (.error _, logs) => (⟨500, "Internal server error"⟩, logs)
        | (.ok, logs) => (⟨200, "Message deleted successfully"⟩, logs)
    else (⟨403, "Insufficient permissions"⟩, [])

/-! ## Token verification and the auth middleware (`middleware/auth.js`) -/

/-- Outcome of `jwt.verify` on a token: success carrying the decoded
`userId`, a `TokenExpiredError`, or any other verification error. -/
inductive VerifyResult
  | ok (userId : String)
  | expired
  | invalid
deriving DecidableEq, Repr

/-- Row of the `refresh_tokens` table read by `/auth/refresh`:
`user_id`, `expires_at` (persisted absolute expiry, modelled as a numeric
timestamp) and the `is_revoked` flag. -/
structure TokenRecord where
  userId : String
  expiresAt : Nat
  isRevoked : Bool
deriving DecidableEq, Repr

/-- Row of the `users` table as selected by the auth queries (the columns the
embedded checks read). -/
structure AuthUser where
  id : String
  role : String
deriving DecidableEq, Repr

/-- Outcome of the authorization middleware: either the request proceeds with
the principal attached, or it is rejected with a response. -/
inductive AuthOutcome
  | proceed (user : AuthUser)
  | reject (resp : Resp)
deriving DecidableEq, Repr

/-- Embedding of `authenticateToken` (middleware/auth.js lines 5-48).
`verify` abstracts `jwt.verify(token, JWT_SECRET)`; a thrown
`TokenExpiredError` reaches the catch as `.expired`, any other verification
error as `.invalid`.  `findActiveUser` abstracts the
`SELECT ... FROM users WHERE id = .. AND status = 'active'` query. -/
def authenticateToken (token : Option String) (verify : String → VerifyResult)
    (findActiveUser : String → Option AuthUser) : AuthOutcome :=
  match token with
  | none => .reject ⟨401, "Access token required"⟩
  | some t =>
    match verify t with
    | .expired => .reject ⟨401, "Token expired"⟩
    | .invalid => .reject ⟨403, "Invalid token"⟩
    | .ok userId =>
      match findActiveUser userId with
      | none => .reject ⟨401, "Invalid token or user not found"⟩
      | some u => .proceed u

/-! ## Refresh endpoint (`authController.js`, `refreshToken`, lines 298-394) -/

/-- Result of `/auth/refresh`: the response, and the `userId` the newly minted
access token encodes (`none` when no access token is issued). -/
structure RefreshResult where
  resp : Resp
  issuedAccessTokenFor : Option String
deriving DecidableEq, Repr

/-- Embedding of the `refreshToken` handler.  `verify` abstracts
`jwt.verify(refreshToken, JWT_REFRESH_SECRET, ...)`; any error it raises
(expired or otherwise) lands in the handler's single catch, which answers
401 "Invalid refresh token".  `findRecord` abstracts the `refresh_tokens`
lookup by token value, `now` the `new Date()` comparison against the
persisted `expires_at`, and `findActiveUser` the active-user lookup. -/
def refreshTokenEndpoint (body : Option String) (verify : String → VerifyResult)
    (findRecord : String → Option TokenRecord) (now : Nat)
    (findActiveUser : String → Option AuthUser) : RefreshResult :=
  match body with
  | none => ⟨⟨401, "Refresh token required"⟩, none⟩
  | some tok =>
    match verify tok with
    | .expired => ⟨⟨401, "Invalid refresh token"⟩, none⟩
    | .invalid => ⟨⟨401, "Invalid refresh token"⟩, none⟩
    | .ok userId =>
      match findRecord tok with
      | none => ⟨⟨401, "Invalid or expired refresh token"⟩, none⟩
      | some record =>
        if record.isRevoked || decide (record.expiresAt < now) then
          ⟨⟨401, "Invalid or expired refresh token"⟩, none⟩
        else
          match findActiveUser userId with
          | none => ⟨⟨401, "User not found or inactive"⟩, none⟩
          | some u => ⟨⟨200, ""⟩, some u.id⟩

/-! ## Single-message fetch (`messageController.js`, `getMessageBySlug`, lines 197-316) -/

/-- Result of `getMessageBySlug`: the response (with the `viewCount` the JSON
body reports, when present) and the stored row after the handler ran (`none`
when no row matched the slug). -/
structure GetMsgOutcome where
  resp : Resp
  respViewCount : Option Nat
  stored : Option Msg
deriving DecidableEq, Repr

/-- Embedding of `getMessageBySlug`.  `fetched` is the row the
`SELECT ... WHERE slug/id = $1` returned.  A non-active message is served
only to admins, moderators or its author (else 404); the
`UPDATE messages SET view_count = view_count + 1` is issued only when
`status === 'active'`; the response reports `message.view_count + 1` without
re-querying. -/
def getMessageBySlug (slug : String) (fetched : Option Msg)
    (user : Option UserCtx) : GetMsgOutcome :=
  if slug = "" then ⟨⟨400, "Invalid slug parameter"⟩, none, fetched⟩
  else
    match fetched with
    | none => ⟨⟨404, "Message not found"⟩, none, none⟩
    | some m =>
      if m.status != "active" && (user.map UserCtx.role) != some "admin" &&
          (user.map UserCtx.role) != some "moderator" &&
          (user.map UserCtx.id) != some m.authorId then
        ⟨⟨404, "Message not found"⟩, none, some m⟩
      else
        let stored := if m.status == "active" then
            ⟨m.id, m.title, m.slug, m.status, m.authorId, m.viewCount + 1⟩ else m
        ⟨⟨200, ""⟩, some (m.viewCount + 1), some stored⟩

/-! ## Pagination and sort handling (`middleware/validation.js` lines 252-294,
`getMessages` lines 74-131, `getUsers` lines 44-77) -/

/-- Embedding of `parseInt(q) || d`: `none` models an absent or unparseable
(`NaN`) query parameter; a parsed 0 is falsy and also falls back to `d`. -/
def parseIntOr (q : Option Int) (d : Int) : Int :=
  match q with
  | none => d
  | some v => if v = 0 then d else v

/-- Controller-side page size: `Math.min(parseInt(req.query.limit) || 10, 100)`. -/
def limitClamp (q : Option Int) : Int := min (parseIntOr q 10) 100

/-- Controller-side page number: `parseInt(req.query.page) || 1`. -/
def pageOf (q : Option Int) : Int := parseIntOr q 1

/-- Sort allow-list of the `validatePagination` middleware
(validation.js line 252). -/
def ALLOWED_SORT_FIELDS : List String :=
  ["created_at", "updated_at", "title", "view_count", "like_count", "published_at"]

/-- The `page` validator: optional, else `isInt({ min: 1, max: 1000 })`. -/
def validPageParam (q : Option Int) : Bool :=
  match q with
  | none => true
  | some v => decide (1 ≤ v ∧ v ≤ 1000)

/-- The `limit` validator: optional, else `isInt({ min: 1, max: 100 })`. -/
def validLimitParam (q : Option Int) : Bool :=
  match q with
  | none => true
  | some v => decide (1 ≤ v ∧ v ≤ 100)

/-- The `sort` validator: optional, else `isIn(ALLOWED_SORT_FIELDS)`. -/
def validSortParam (q : Option String) : Bool :=
  match q with
  | none => true
  | some s => ALLOWED_SORT_FIELDS.contains s

/-- The `order` validator: optional, else `isIn(['asc', 'desc'])`. -/
def validOrderParam (q : Option String) : Bool :=
  match q with
  | none => true
  | some s => ["asc", "desc"].contains s

/-- The `validatePagination` chain followed by `handleValidationErrors`:
the request passes iff every present parameter validates. -/
def validatePagination (pageQ limitQ : Option Int) (sortQ orderQ : Option String) : Bool :=
  validPageParam pageQ && validLimitParam limitQ && validSortParam sortQ && validOrderParam orderQ

/-- Controller-side sort allow-list of `getUsers` (user controller line 51). -/
def getUsersAllowedSortFields : List String :=
  ["created_at", "updated_at", "email", "username", "last_login"]

/-- Controller-side sort allow-list of `getMessages` (messageController.js line 81). -/
def getMessagesAllowedSortFields : List String :=
  ["created_at", "updated_at", "title", "view_count", "like_count", "published_at"]

/-- Controller-side sort selection:
`allowedSortFields.includes(req.query.sort) ? req.query.sort : 'created_at'`. -/
def sortColumn (allowed : List String) (q : Option String) : String :=
  match q with
  | some s => if allowed.contains s then s else "created_at"
  | none => "created_at"

/-- Controller-side order selection: `req.query.order === 'asc' ? 'asc' : 'desc'`. -/
def orderDir (q : Option String) : String := if q == some "asc" then "asc" else "desc"

/-- Outcome of a list route (validation middleware then controller): either a
400 validation rejection before any query runs, or the `ORDER BY`/`LIMIT`
parameters of the executed query. -/
inductive ListOutcome
  | validationError (resp : Resp)
  | executed (sort : String) (ord : String) (limit : Int) (page : Int)
deriving DecidableEq, Repr

/-- The `GET /api/users` route: `validatePagination` then `getUsers`. -/
def getUsersPipeline (pageQ limitQ : Option Int) (sortQ orderQ : Option String) : ListOutcome :=
  if validatePagination pageQ limitQ sortQ orderQ then
    .executed (sortColumn getUsersAllowedSortFields sortQ) (orderDir orderQ)
      (limitClamp limitQ) (pageOf pageQ)
  else .validationError ⟨400, "Validation failed"⟩

/-- The `GET /api/messages` route: `validatePagination` then `getMessages`. -/
def getMessagesPipeline (pageQ limitQ : Option Int) (sortQ orderQ : Option String) : ListOutcome :=
  if validatePagination pageQ limitQ sortQ orderQ then
    .executed (sortColumn getMessagesAllowedSortFields sortQ) (orderDir orderQ)
      (limitClamp limitQ) (pageOf pageQ)
  else .validationError ⟨400, "Validation failed"⟩

/-! ## Slug generation and uniquification (`messageController.js`,
`generateSlug` lines 11-18 and `createMessage` lines 323-364) -/

/-- Character class kept by the JS regex replace `/[^a-z0-9 -]/g` → `''`
(applied after lowercasing): lowercase ASCII letters, digits, space, hyphen. -/
def isSlugAllowedChar (c : Char) : Bool :=
  c.isLower || c.isDigit || c == ' ' || c == '-'

/-- The JS `\s` class, restricted to its ASCII members; only the space can
survive the preceding character filter, so the rest is inert here. -/
def isJsWhitespace (c : Char) : Bool :=
  c == ' ' || c == '\t' || c == '\n' || c == '\r' || c == '\x0b' || c == '\x0c'

/-- Replace every maximal run of `p`-characters by the single character `r`:
the effect of `replace(/X+/g, r)` for a character class `X`. -/
def collapseRuns (p : Char → Bool) (r : Char) : List Char → List Char
  | [] => []
  | [c] => if p c then [r] else [c]
  | c1 :: c2 :: cs =>
    if p c1 then
      if p c2 then collapseRuns p r (c2 :: cs)
      else r :: collapseRuns p r (c2 :: cs)
    else c1 :: collapseRuns p r (c2 :: cs)

/-- Embedding of `generateSlug` (messageController.js lines 11-18):
lowercase, strip characters outside `[a-z0-9 -]`, collapse whitespace runs to
`-`, collapse `-` runs.  The trailing `.trim('-')` in the source is
`String.prototype.trim`, which ignores its argument and strips whitespace; at
that point the value contains no whitespace, so it is the identity and is
omitted.  `toLowerCase` is modelled per character; any non-ASCII character is
removed by the filter either way. -/
def generateSlug (title : String) : String :=
  String.mk (collapseRuns (fun c => c == '-') '-'
    (collapseRuns isJsWhitespace '-'
      ((title.data.map Char.toLower).filter isSlugAllowedChar)))

/-- Decimal digit character, `48 + d` being the code point of `'0' + d`. -/
def digitChar (d : Nat) : Char := Char.ofNat (48 + d)

/-- Fuelled most-significant-first decimal rendering of a natural number;
`fuel ≥ n` suffices since `n / 10 < n` for positive `n`. -/
def natToDecAux : Nat → Nat → List Char
  | 0, _ => []
  | fuel + 1, n =>
    if n = 0 then [] else natToDecAux fuel (n / 10) ++ [digitChar (n % 10)]

/-- Decimal rendering of a natural number, the Lean counterpart of the JS
template-literal conversion `${counter}`. -/
def natToDecString (n : Nat) : String :=
  if n = 0 then "0" else String.mk (natToDecAux n n)

/-- Value of a most-significant-first decimal digit string; left inverse of
`natToDecString`, used to prove the candidate slugs pairwise distinct. -/
def decValue (l : List Char) : Nat :=
  l.foldl (fun acc c => acc * 10 + (c.toNat - 48)) 0

/-- Candidate slug examined at loop counter `c` by the uniquification loop in
`createMessage`: the bare candidate first, then `` `${slug}-${counter}` ``. -/
def slugCandidate (slug : String) : Nat → String
  | 0 => slug
  | n + 1 => slug ++ "-" ++ natToDecString (n + 1)

/-- The `while (slugExists)` loop of `createMessage` (lines 335-346), with
explicit fuel: check the candidate at the current counter against the
existing slugs, and on a collision retry with the incremented counter. -/
def uniquifyAux (taken : List String) (slug : String) : Nat → Nat → String
  | c, 0 => slugCandidate slug c
  | c, fuel + 1 =>
    if slugCandidate slug c ∈ taken then uniquifyAux taken slug (c + 1) fuel
    else slugCandidate slug c

/-- Slug uniquification against the existing rows: fuel `taken.length + 1`
always suffices because the candidates are pairwise distinct (the counter
strictly increases), so some candidate among the first `taken.length + 1`
avoids the finite `taken`. -/
def uniquifySlug (taken : List String) (slug : String) : String :=
  uniquifyAux taken slug 0 (taken.length + 1)

/-- Slug part of `createMessage`: derive the candidate from the title,
uniquify it against the stored slugs, and insert the row. -/
def createMessageSlug (db : List String) (title : String) : String × List String :=
  let s := uniquifySlug db (generateSlug title)
  (s, s :: db)

/-! ## Slug lemmas -/

theorem digitChar_toNat : ∀ d < 10, (digitChar d).toNat = 48 + d := by decide

theorem decValue_natToDecAux :
    ∀ fuel n, n ≤ fuel → decValue (natToDecAux fuel n) = n := by
  intro fuel
  induction fuel with
  | zero =>
    intro n hn
    have : n = 0 := by omega
    subst this
    rfl
  | succ f ih =>
    intro n hn
    by_cases h0 : n = 0
    · subst h0
      simp [natToDecAux, decValue]
    · have hdiv : n / 10 ≤ f := by
        have : n / 10 < n := Nat.div_lt_self (Nat.pos_of_ne_zero h0) (by norm_num)
        omega
      simp only [natToDecAux, if_neg h0]
      have hfold := ih (n / 10) hdiv
      unfold decValue at hfold ⊢
      rw [List.foldl_append, List.foldl_cons, List.foldl_nil, hfold,
        digitChar_toNat (n % 10) (Nat.mod_lt n (by norm_num))]
      omega

theorem decValue_natToDecString (n : Nat) : decValue (natToDecString n).data = n := by
  unfold natToDecString
  by_cases h : n = 0
  · subst h
    rfl
  · rw [if_neg h]
    exact decValue_natToDecAux n n le_rfl

theorem natToDecString_injective : Function.Injective natToDecString := by
  intro m n h
  have hm := decValue_natToDecString m
  rw [h, decValue_natToDecString n] at hm
  exact hm.symm

theorem slugCandidate_succ_ne (slug : String) (n : Nat) :
    slugCandidate slug (n + 1) ≠ slug := by
  intro h
  have hd := congrArg (fun s => s.data.length) h
  simp only [slugCandidate, String.data_append] at hd
  simp at hd

theorem slugCandidate_injective (slug : String) :
    Function.Injective (slugCandidate slug) := by
  intro m n h
  match m, n with
  | 0, 0 => rfl
  | 0, k + 1 => exact absurd h.symm (slugCandidate_succ_ne slug k)
  | j + 1, 0 => exact absurd h (slugCandidate_succ_ne slug j)
  | j + 1, k + 1 =>
    simp only [slugCandidate, String.append_assoc] at h
    have hd := congrArg String.data h
    simp only [String.data_append] at hd
    have h2 := List.append_cancel_left hd
    have h3 := List.append_cancel_left h2
    have h4 : natToDecString (j + 1) = natToDecString (k + 1) := String.ext h3
    exact natToDecString_injective h4

theorem uniquifyAux_skip (taken : List String) (slug : String) (c fuel : Nat)
    (hin : slugCandidate slug c ∈ taken) :
    uniquifyAux taken slug c (fuel + 1) = uniquifyAux taken slug (c + 1) fuel := by
  simp [uniquifyAux, hin]

theorem uniquifyAux_stop (taken : List String) (slug : String) (c fuel : Nat)
    (hout : slugCandidate slug c ∉ taken) :
    uniquifyAux taken slug c (fuel + 1) = slugCandidate slug c := by
  simp [uniquifyAux, hout]

theorem uniquifyAux_not_mem (taken : List String) (slug : String) :
    ∀ fuel c, (∃ k, k < fuel ∧ slugCandidate slug (c + k) ∉ taken) →
      uniquifyAux taken slug c fuel ∉ taken := by
  intro fuel
  induction fuel with
  | zero =>
    rintro c ⟨k, hk, _⟩
    omega
  | succ f ih =>
    rintro c ⟨k, hk, hkm⟩
    by_cases hmem : slugCandidate slug c ∈ taken
    · rw [uniquifyAux_skip taken slug c f hmem]
      apply ih (c + 1)
      cases k with
      | zero =>
        simp only [Nat.add_zero] at hkm
        exact absurd hmem hkm
      | succ k2 =>
        refine ⟨k2, by omega, ?_⟩
        rw [show c + 1 + k2 = c + (k2 + 1) by omega]
        exact hkm
    · rw [uniquifyAux_stop taken slug c f hmem]
      exact hmem

theorem exists_fresh_candidate (taken : List String) (slug : String) :
    ∃ k, k < taken.length + 1 ∧ slugCandidate slug k ∉ taken := by
  by_contra hcon
  push_neg at hcon
  set l1 := (List.range (taken.length + 1)).map (slugCandidate slug) with hl1
  have hnd : l1.Nodup :=
    List.Nodup.map (slugCandidate_injective slug) (List.nodup_range (taken.length + 1))
  have hsub : l1 ⊆ taken := by
    intro x hx
    rw [hl1, List.mem_map] at hx
    obtain ⟨k, hk, hxk⟩ := hx
    rw [List.mem_range] at hk
    rw [← hxk]
    exact hcon k hk
  have hlen : l1.length = taken.length + 1 := by
    rw [hl1, List.length_map, List.length_range]
  have hcard1 : l1.toFinset.card = l1.length := List.toFinset_card_of_nodup hnd
  have hcard2 : l1.toFinset ⊆ taken.toFinset := by
    intro x hx
    rw [List.mem_toFinset] at hx ⊢
    exact hsub hx
  have hcard3 := Finset.card_le_card hcard2
  have hcard4 : taken.toFinset.card ≤ taken.length := taken.toFinset_card_le
  omega

theorem uniquifySlug_not_mem (taken : List String) (slug : String) :
    uniquifySlug taken slug ∉ taken := by
  obtain ⟨k, hk, hkm⟩ := exists_fresh_candidate taken slug
  exact uniquifyAux_not_mem taken slug (taken.length + 1) 0
    ⟨k, hk, by simpa using hkm⟩

theorem uniquifySlug_fresh (taken : List String) (slug : String)
    (h : slug ∉ taken) : uniquifySlug taken slug = slug := by
  unfold uniquifySlug
  exact uniquifyAux_stop taken slug 0 taken.length h

theorem mem_collapseRuns (p : Char → Bool) (r : Char) :
    ∀ l c, c ∈ collapseRuns p r l → c = r ∨ (c ∈ l ∧ p c = false) := by
  intro l
  induction l with
  | nil =>
    intro c hc
    simp [collapseRuns] at hc
  | cons a l ih =>
    intro c hc
    cases l with
    | nil =>
      simp only [collapseRuns] at hc
      by_cases hpa : p a = true
      · rw [if_pos hpa] at hc
        simp at hc
        exact Or.inl hc
      · rw [if_neg hpa] at hc
        simp at hc
        exact Or.inr ⟨by simp [hc], by rw [hc]; simpa using hpa⟩
    | cons b l2 =>
      simp only [collapseRuns] at hc
      by_cases hpa : p a = true
      · rw [if_pos hpa] at hc
        by_cases hpb : p b = true
        · rw [if_pos hpb] at hc
          rcases ih c hc with h | ⟨hmem, hpc⟩
          · exact Or.inl h
          · exact Or.inr ⟨List.mem_cons_of_mem a hmem, hpc⟩
        · rw [if_neg hpb] at hc
          rcases List.mem_cons.mp hc with h | h
          · exact Or.inl h
          · rcases ih c h with h2 | ⟨hmem, hpc⟩
            · exact Or.inl h2
            · exact Or.inr ⟨List.mem_cons_of_mem a hmem, hpc⟩
      · rw [if_neg hpa] at hc
        rcases List.mem_cons.mp hc with h | h
        · exact Or.inr ⟨by simp [h], by rw [h]; simpa using hpa⟩
        · rcases ih c h with h2 | ⟨hmem, hpc⟩
          · exact Or.inl h2
          · exact Or.inr ⟨List.mem_cons_of_mem a hmem, hpc⟩

theorem generateSlug_charset (t : String) :
    ∀ c ∈ (generateSlug t).data, c.isLower = true ∨ c.isDigit = true ∨ c = '-' := by
  intro c hc
  have hc1 : c ∈ (collapseRuns (fun c => c == '-') '-'
      (collapseRuns isJsWhitespace '-'
        ((t.data.map Char.toLower).filter isSlugAllowedChar))) := hc
  rcases mem_collapseRuns _ '-' _ c hc1 with h | ⟨h2, _⟩
  · exact Or.inr (Or.inr h)
  · rcases mem_collapseRuns isJsWhitespace '-' _ c h2 with h | ⟨h3, hws⟩
    · exact Or.inr (Or.inr h)
    · have hallowed : isSlugAllowedChar c = true := (List.mem_filter.mp h3).2
      unfold isSlugAllowedChar at hallowed
      have hnotspace : (c == ' ') = false := by
        unfold isJsWhitespace at hws
        rcases Bool.or_eq_false_iff.mp hws with ⟨h4, _⟩
        rcases Bool.or_eq_false_iff.mp h4 with ⟨h5, _⟩
        rcases Bool.or_eq_false_iff.mp h5 with ⟨h6, _⟩
        rcases Bool.or_eq_false_iff.mp h6 with ⟨h7, _⟩
        rcases Bool.or_eq_false_iff.mp h7 with ⟨h8, _⟩
        exact h8
      rcases Bool.or_eq_true_iff.mp hallowed with h4 | hhyphen
      · rcases Bool.or_eq_true_iff.mp h4 with h5 | hspace
        · rcases Bool.or_eq_true_iff.mp h5 with hlow | hdig
          · exact Or.inl hlow
          · exact Or.inr (Or.inl hdig)
        · rw [hnotspace] at hspace
          exact absurd hspace (by simp)
      · exact Or.inr (Or.inr (by simpa using hhyphen))

theorem slugCandidate_one (s : String) : slugCandidate s 1 = s ++ "-1" := by
  show s ++ "-" ++ natToDecString 1 = s ++ "-1"
  rw [String.append_assoc]
  rfl

theorem slugCandidate_two (s : String) : slugCandidate s 2 = s ++ "-2" := by
  show s ++ "-" ++ natToDecString 2 = s ++ "-2"
  rw [String.append_assoc]
  rfl

theorem uniquifySlug_second (db : List String) (s : String)
    (hdb1 : (s ++ "-1") ∉ db) : uniquifySlug (s :: db) s = s ++ "-1" := by
  have hne : s ++ "-1" ≠ s := by
    rw [← slugCandidate_one]
    exact slugCandidate_succ_ne s 0
  have hout : slugCandidate s 1 ∉ s :: db := by
    rw [slugCandidate_one]
    intro hmem
    rcases List.mem_cons.mp hmem with h | h
    · exact hne h
    · exact hdb1 h
  unfold uniquifySlug
  rw [List.length_cons,
    uniquifyAux_skip _ _ 0 (db.length + 1) (List.mem_cons_self s db),
    Nat.zero_add, uniquifyAux_stop _ _ 1 db.length hout, slugCandidate_one]

theorem uniquifySlug_third (db : List String) (s : String)
    (hdb2 : (s ++ "-2") ∉ db) :
    uniquifySlug ((s ++ "-1") :: s :: db) s = s ++ "-2" := by
  have hne0 : s ++ "-2" ≠ s := by
    rw [← slugCandidate_two]
    exact slugCandidate_succ_ne s 1
  have hne1 : s ++ "-2" ≠ s ++ "-1" := by
    rw [← slugCandidate_two, ← slugCandidate_one]
    intro h
    have h21 : (2 : Nat) = 1 := slugCandidate_injective s h
    exact absurd h21 (by norm_num)
  have hin0 : slugCandidate s 0 ∈ (s ++ "-1") :: s :: db :=
    List.mem_cons_of_mem _ (List.mem_cons_self s db)
  have hin1 : slugCandidate s 1 ∈ (s ++ "-1") :: s :: db := by
    rw [slugCandidate_one]
    exact List.mem_cons_self _ _
  have hout : slugCandidate s 2 ∉ (s ++ "-1") :: s :: db := by
    rw [slugCandidate_two]
    intro hmem
    rcases List.mem_cons.mp hmem with h | h
    · exact hne1 h
    · rcases List.mem_cons.mp h with h2 | h2
      · exact hne0 h2
      · exact hdb2 h2
  unfold uniquifySlug
  rw [List.length_cons, List.length_cons,
    uniquifyAux_skip _ _ 0 (db.length + 1 + 1) hin0, Nat.zero_add,
    uniquifyAux_skip _ _ 1 (db.length + 1) hin1,
    uniquifyAux_stop _ _ 2 db.length hout, slugCandidate_two]

/-! ## Update handlers with field whitelisting (`updateMessage`,
messageController.js lines 443-630; `updateUser`, user controller lines
199-362; allow-lists, validation.js lines 17-24) -/

/-- Value placed in the dynamic `updates` object: a string, a boolean, or the
`new Date()` written to `published_at`. -/
inductive FieldVal
  | s (v : String)
  | b (v : Bool)
  | now
deriving DecidableEq, Repr

/-- The static user-update allow-list (validation.js lines 18-20). -/
def ALLOWED_USER_UPDATE_FIELDS : List String :=
  ["first_name", "last_name", "username", "bio", "avatar_url", "role", "status"]

/-- The static message-update allow-list (validation.js lines 22-24). -/
def ALLOWED_MESSAGE_UPDATE_FIELDS : List String :=
  ["title", "content", "excerpt", "category_id", "status", "is_featured", "is_pinned"]

/-- One `if (x !== undefined && LIST.includes(field)) updates.field = x` block
for a string-valued field. -/
def strOptUpdates (field : String) (allowed : List String) (v : Option String) :
    List (String × FieldVal) :=
  match v with
  | none => []
  | some x => if allowed.contains field then [(field, FieldVal.s x)] else []

/-- The boolean-field counterpart of `strOptUpdates`. -/
def boolOptUpdates (field : String) (allowed : List String) (v : Option Bool) :
    List (String × FieldVal) :=
  match v with
  | none => []
  | some x => if allowed.contains field then [(field, FieldVal.b x)] else []

/-- The `title` block of `updateMessage` (lines 480-506): set `title`, and
when it differs from the stored title also regenerate and re-uniquify the
slug (`db` holds the slugs of the other rows, the check excluding the row's
own id). -/
def titleUpdates (db : List String) (existing : Msg) (title : Option String) :
    List (String × FieldVal) :=
  match title with
  | none => []
  | some t =>
    if ALLOWED_MESSAGE_UPDATE_FIELDS.contains "title" then
      if t ≠ existing.title then
        [("title", FieldVal.s t), ("slug", FieldVal.s (uniquifySlug db (generateSlug t)))]
      else [("title", FieldVal.s t)]
    else []

/-- The role-gated `status` block of `updateMessage` (lines 526-532):
set `status`, and stamp `published_at` on a transition to active. -/
def statusUpdates (existing : Msg) (status : Option String) : List (String × FieldVal) :=
  match status with
  | none => []
  | some st =>
    if ALLOWED_MESSAGE_UPDATE_FIELDS.contains "status" then
      if st = "active" ∧ existing.status ≠ "active" then
        [("status", FieldVal.s st), ("published_at", FieldVal.now)]
      else [("status", FieldVal.s st)]
    else []

/-- Update body of `PUT /api/messages/:id` as destructured by the handler
(each field `none` when absent from the payload). -/
structure MsgUpdateBody where
  title : Option String
  content : Option String
  excerpt : Option String
  categoryId : Option String
  tags : Option (List String)
  isFeatured : Option Bool
  isPinned : Option Bool
  status : Option String
deriving DecidableEq, Repr

/-- The `updates` object of `updateMessage` (lines 476-533), in insertion
order; the `is_featured`, `is_pinned` and `status` blocks run only for
admins and moderators. -/
def buildMessageUpdates (db : List String) (existing : Msg) (body : MsgUpdateBody)
    (role : String) : List (String × FieldVal) :=
  titleUpdates db existing body.title ++
  strOptUpdates "content" ALLOWED_MESSAGE_UPDATE_FIELDS body.content ++
  strOptUpdates "excerpt" ALLOWED_MESSAGE_UPDATE_FIELDS body.excerpt ++
  strOptUpdates "category_id" ALLOWED_MESSAGE_UPDATE_FIELDS body.categoryId ++
  (if role == "admin" || role == "moderator" then
    boolOptUpdates "is_featured" ALLOWED_MESSAGE_UPDATE_FIELDS body.isFeatured ++
    boolOptUpdates "is_pinned" ALLOWED_MESSAGE_UPDATE_FIELDS body.isPinned ++
    statusUpdates existing body.status
  else [])

/-- Outcome of `updateMessage`: the 404/403/400 rejections, or the field-value
pairs of the generated `SET` clause (the fixed `updated_at = NOW()` the query
text appends is not part of the dynamic list) plus the tag replacement. -/
inductive UpdateMsgOutcome
  | notFound
  | forbidden
  | noValidFields
  | updated (setFields : List (String × FieldVal)) (tags : Option (List String))
deriving DecidableEq, Repr

/-- Embedding of `updateMessage`: fetch, permission check (author, moderator
or admin), whitelisted update build, empty-update rejection
(`Object.keys(updates).length === 0 && !tags`), then the update. -/
def updateMessage (db : List String) (fetched : Option Msg) (caller : UserCtx)
    (body : MsgUpdateBody) : UpdateMsgOutcome :=
  match fetched with
  | none => .notFound
  | some m =>
    if caller.role == "admin" || caller.role == "moderator" || caller.id == m.authorId then
      if (buildMessageUpdates db m body caller.role).isEmpty && body.tags.isNone then
        .noValidFields
      else .updated (buildMessageUpdates db m body caller.role) body.tags
    else .forbidden

/-- Update body of `PUT /api/users/:id` as destructured by the handler. -/
structure UserUpdateBody where
  firstName : Option String
  lastName : Option String
  username : Option String
  bio : Option String
  avatarUrl : Option String
  role : Option String
  status : Option String
deriving DecidableEq, Repr

/-- The admin-only `role` block of `updateUser` (lines 275-281): honour the
field only when the value is one of the recognized roles. -/
def roleUpdates (v : Option String) : List (String × FieldVal) :=
  match v with
  | none => []
  | some r =>
    if ALLOWED_USER_UPDATE_FIELDS.contains "role" then
      if ["user", "admin", "moderator"].contains r then [("role", FieldVal.s r)]
      else []
    else []

/-- The admin-only `status` block of `updateUser` (lines 282-288). -/
def userStatusUpdates (v : Option String) : List (String × FieldVal) :=
  match v with
  | none => []
  | some st =>
    if ALLOWED_USER_UPDATE_FIELDS.contains "status" then
      if ["active", "inactive", "suspended", "pending_verification"].contains st then
        [("status", FieldVal.s st)]
      else []
    else []

/-- The `updates` object of `updateUser` (lines 253-289): five plain fields,
then the admin-only `role` and `status` blocks. -/
def buildUserUpdates (body : UserUpdateBody) (isAdmin : Bool) :
    List (String × FieldVal) :=
  strOptUpdates "first_name" ALLOWED_USER_UPDATE_FIELDS body.firstName ++
  strOptUpdates "last_name" ALLOWED_USER_UPDATE_FIELDS body.lastName ++
  strOptUpdates "username" ALLOWED_USER_UPDATE_FIELDS body.username ++
  strOptUpdates "bio" ALLOWED_USER_UPDATE_FIELDS body.bio ++
  strOptUpdates "avatar_url" ALLOWED_USER_UPDATE_FIELDS body.avatarUrl ++
  (if isAdmin then roleUpdates body.role ++ userStatusUpdates body.status else [])

/-- Row of the `users` table as read by `updateUser` (the columns its checks
touch). -/
structure UserRow where
  id : String
  username : String
deriving DecidableEq, Repr

/-- The `if (username && username !== existingUser.username)` taken-username
check: a JS empty string is falsy, hence the `un != ""` guard. -/
def usernameConflict (body : UserUpdateBody) (ex : UserRow)
    (usernameTakenByOther : String → Bool) : Bool :=
  match body.username with
  | some un => un != "" && un != ex.username && usernameTakenByOther un
  | none => false

/-- Outcome of `updateUser`: the 400/404/403 rejections, or the field-value
pairs of the generated `SET` clause (again without the fixed
`updated_at = NOW()`). -/
inductive UpdateUserOutcome
  | badId
  | notFound
  | usernameTaken
  | forbidden
  | noValidFields
  | updated (setFields : List (String × FieldVal))
deriving DecidableEq, Repr

/-- Embedding of `updateUser`: UUID format check, fetch, taken-username
check, permission check (admin or self), whitelisted update build with
admin-only `role`/`status`, empty-update rejection, then the update. -/
def updateUser (idIsUuid : Bool) (targetId : String) (existing : Option UserRow)
    (usernameTakenByOther : String → Bool) (caller : UserCtx)
    (body : UserUpdateBody) : UpdateUserOutcome :=
  if !idIsUuid then .badId
  else
    match existing with
    | none => .notFound
    | some ex =>
      if usernameConflict body ex usernameTakenByOther then .usernameTaken
      else
        if caller.role == "admin" || caller.id == targetId then
          if (buildUserUpdates body (caller.role == "admin")).isEmpty then .noValidFields
          else .updated (buildUserUpdates body (caller.role == "admin"))
        else .forbidden

/-! ## Whitelisting lemmas -/

theorem mem_strOptUpdates (field : String) (allowed : List String) (v : Option String)
    (kv : String × FieldVal) (h : kv ∈ strOptUpdates field allowed v) : kv.1 = field := by
  cases v with
  | none => simp [strOptUpdates] at h
  | some x =>
    simp only [strOptUpdates] at h
    split at h
    · simp at h
      rw [h]
    · simp at h

theorem mem_boolOptUpdates (field : String) (allowed : List String) (v : Option Bool)
    (kv : String × FieldVal) (h : kv ∈ boolOptUpdates field allowed v) : kv.1 = field := by
  cases v with
  | none => simp [boolOptUpdates] at h
  | some x =>
    simp only [boolOptUpdates] at h
    split at h
    · simp at h
      rw [h]
    · simp at h

theorem mem_titleUpdates (db : List String) (ex : Msg) (t : Option String)
    (kv : String × FieldVal) (h : kv ∈ titleUpdates db ex t) :
    kv.1 = "title" ∨ kv.1 = "slug" := by
  cases t with
  | none => simp [titleUpdates] at h
  | some t0 =>
    simp only [titleUpdates] at h
    split at h
    · split at h
      · rcases List.mem_cons.mp h with h1 | h1
        · left
          rw [h1]
        · simp at h1
          right
          rw [h1]
      · simp at h
        left
        rw [h]
    · simp at h

theorem mem_roleUpdates (v : Option String) (kv : String × FieldVal)
    (h : kv ∈ roleUpdates v) : kv.1 = "role" := by
  cases v with
  | none => simp [roleUpdates] at h
  | some r =>
    simp only [roleUpdates] at h
    split at h
    · split at h
      · simp at h
        rw [h]
      · simp at h
    · simp at h

theorem mem_userStatusUpdates (v : Option String) (kv : String × FieldVal)
    (h : kv ∈ userStatusUpdates v) : kv.1 = "status" := by
  cases v with
  | none => simp [userStatusUpdates] at h
  | some st =>
    simp only [userStatusUpdates] at h
    split at h
    · split at h
      · simp at h
        rw [h]
      · simp at h
    · simp at h

theorem buildMessageUpdates_lowpriv_keys (db : List String) (ex : Msg)
    (body : MsgUpdateBody) (role : String)
    (hgate : (role == "admin" || role == "moderator") = false)
    (kv : String × FieldVal) (h : kv ∈ buildMessageUpdates db ex body role) :
    kv.1 = "title" ∨ kv.1 = "slug" ∨ kv.1 = "content" ∨ kv.1 = "excerpt" ∨
      kv.1 = "category_id" := by
  unfold buildMessageUpdates at h
  rw [hgate] at h
  simp only [Bool.false_eq_true, if_false, List.append_nil, List.mem_append] at h
  rcases h with (((h | h) | h) | h)
  · rcases mem_titleUpdates db ex body.title kv h with h1 | h1
    · exact Or.inl h1
    · exact Or.inr (Or.inl h1)
  · exact Or.inr (Or.inr (Or.inl (mem_strOptUpdates _ _ _ kv h)))
  · exact Or.inr (Or.inr (Or.inr (Or.inl (mem_strOptUpdates _ _ _ kv h))))
  · exact Or.inr (Or.inr (Or.inr (Or.inr (mem_strOptUpdates _ _ _ kv h))))

theorem buildMessageUpdates_strip (db : List String) (ex : Msg) (body : MsgUpdateBody)
    (role : String) (hgate : (role == "admin" || role == "moderator") = false) :
    buildMessageUpdates db ex body role =
      buildMessageUpdates db ex
        ⟨body.title, body.content, body.excerpt, body.categoryId, body.tags,
          none, none, none⟩ role := by
  unfold buildMessageUpdates
  rw [hgate]
  rfl

theorem mem_buildUserUpdates_keys (body : UserUpdateBody) (isAdmin : Bool)
    (kv : String × FieldVal) (h : kv ∈ buildUserUpdates body isAdmin) :
    kv.1 ∈ ALLOWED_USER_UPDATE_FIELDS := by
  unfold buildUserUpdates at h
  simp only [List.mem_append] at h
  rcases h with ((((h | h) | h) | h) | h) | h
  · rw [mem_strOptUpdates _ _ _ kv h]
    decide
  · rw [mem_strOptUpdates _ _ _ kv h]
    decide
  · rw [mem_strOptUpdates _ _ _ kv h]
    decide
  · rw [mem_strOptUpdates _ _ _ kv h]
    decide
  · rw [mem_strOptUpdates _ _ _ kv h]
    decide
  · split at h
    · simp only [List.mem_append] at h
      rcases h with h | h
      · rw [mem_roleUpdates _ kv h]
        decide
      · rw [mem_userStatusUpdates _ kv h]
        decide
    · simp at h

theorem buildUserUpdates_lowpriv_keys (body : UserUpdateBody)
    (kv : String × FieldVal) (h : kv ∈ buildUserUpdates body false) :
    kv.1 = "first_name" ∨ kv.1 = "last_name" ∨ kv.1 = "username" ∨ kv.1 = "bio" ∨
      kv.1 = "avatar_url" := by
  unfold buildUserUpdates at h
  simp only [Bool.false_eq_true, if_false, List.append_nil, List.mem_append] at h
  rcases h with (((h | h) | h) | h) | h
  · exact Or.inl (mem_strOptUpdates _ _ _ kv h)
  · exact Or.inr (Or.inl (mem_strOptUpdates _ _ _ kv h))
  · exact Or.inr (Or.inr (Or.inl (mem_strOptUpdates _ _ _ kv h)))
  · exact Or.inr (Or.inr (Or.inr (Or.inl (mem_strOptUpdates _ _ _ kv h))))
  · exact Or.inr (Or.inr (Or.inr (Or.inr (mem_strOptUpdates _ _ _ kv h))))

theorem buildUserUpdates_strip (body : UserUpdateBody) :
    buildUserUpdates body false =
      buildUserUpdates
        ⟨body.firstName, body.lastName, body.username, body.bio, body.avatarUrl,
          none, none⟩ false := by
  unfold buildUserUpdates
  rfl

/-! ## Claim theorems (first group) -/

/-- C9: the strength validator reports valid exactly when the password has
length at least 8 and contains a lowercase letter, an uppercase letter and a
digit; a special character adds one to the reported score but validity is
independent of the special-character check. -/
theorem c9_password_strength (p : String) :
    ((validatePasswordStrength p).isValid = true ↔
      (8 ≤ p.length ∧ (∃ c ∈ p.data, c.isLower = true) ∧
        (∃ c ∈ p.data, c.isUpper = true) ∧ (∃ c ∈ p.data, c.isDigit = true))) ∧
    (validatePasswordStrength p).score =
      ((if ∃ c ∈ p.data, c.isLower = true then 1 else 0) +
       (if ∃ c ∈ p.data, c.isUpper = true then 1 else 0) +
       (if ∃ c ∈ p.data, c.isDigit = true then 1 else 0) +
       (if ∃ c ∈ p.data, isSpecialChar c = true then 1 else 0)) := by
  unfold validatePasswordStrength
  constructor
  · simp [List.any_eq_true, and_assoc]
  · simp only [← List.any_eq_true]
    cases h1 : p.data.any Char.isLower <;>
      cases h2 : p.data.any Char.isUpper <;>
        cases h3 : p.data.any Char.isDigit <;>
          cases h4 : p.data.any isSpecialChar <;>
            simp [h1, h2, h3, h4]

/-- C8: a failure of the audit-entry writer is caught and swallowed (logged
only), never propagating to the caller; the triggering business operation
(here `deleteMessage`) produces the same response as if the audit write had
succeeded. -/
theorem c8_audit_failure_swallowed (ins : DbResult) (fetched : Option Msg)
    (caller : UserCtx) (deleteStmt : DbResult) :
    (createAuditLog ins).1 = DbResult.ok ∧
    (deleteMessage fetched caller deleteStmt ins).1 =
      (deleteMessage fetched caller deleteStmt DbResult.ok).1 := by
  constructor
  · cases ins <;> rfl
  · cases fetched with
    | none => rfl
    | some m =>
      simp only [deleteMessage]
      split
      · cases deleteStmt with
        | error e => rfl
        | ok => cases ins <;> rfl
      · rfl

/-- C1: a refresh request whose token record is absent, revoked, or past its
persisted expiry is rejected with 401 and no new access token is issued, even
though the signature verified (`verify tok = .ok userId`). -/
theorem c1_revoked_refresh_rejected (tok userId : String)
    (verify : String → VerifyResult) (findRecord : String → Option TokenRecord)
    (now : Nat) (findActiveUser : String → Option AuthUser)
    (hverify : verify tok = VerifyResult.ok userId)
    (hrecord : findRecord tok = none ∨
      ∃ record, findRecord tok = some record ∧
        (record.isRevoked = true ∨ record.expiresAt < now)) :
    (refreshTokenEndpoint (some tok) verify findRecord now findActiveUser).resp.status = 401 ∧
    (refreshTokenEndpoint (some tok) verify findRecord now
      findActiveUser).issuedAccessTokenFor = none := by
  simp only [refreshTokenEndpoint, hverify]
  rcases hrecord with h | ⟨record, hrec, hcond⟩
  · simp [h]
  · have hc : (record.isRevoked || decide (record.expiresAt < now)) = true := by
      rcases hcond with h1 | h1 <;> simp [h1]
    simp [hrec, hc]

/-- Witness for C1: a revoked record whose persisted expiry (9999) has not
passed (now = 0), with a verifying signature, is still rejected with 401 and
no token is issued. -/
theorem c1_witness :
    (refreshTokenEndpoint (some "rt") (fun _ => VerifyResult.ok "u1")
      (fun _ => some ⟨"u1", 9999, true⟩) 0 (fun _ => some ⟨"u1", "user"⟩)).resp.status = 401 ∧
    (refreshTokenEndpoint (some "rt") (fun _ => VerifyResult.ok "u1")
      (fun _ => some ⟨"u1", 9999, true⟩) 0
      (fun _ => some ⟨"u1", "user"⟩)).issuedAccessTokenFor = none :=
  c1_revoked_refresh_rejected "rt" "u1" (fun _ => VerifyResult.ok "u1")
    (fun _ => some ⟨"u1", 9999, true⟩) 0 (fun _ => some ⟨"u1", "user"⟩) rfl
    (Or.inr ⟨⟨"u1", 9999, true⟩, rfl, Or.inl rfl⟩)

/-- C2 counterexample: at `/auth/refresh`, a token whose signature check fails
as otherwise-invalid is answered 401 "Invalid refresh token" — not a 403 —
and the expired case produces the very same response, so the endpoint does
not distinguish the two cases as the claim states. -/
theorem c2_counterexample :
    (refreshTokenEndpoint (some "rt") (fun _ => VerifyResult.invalid)
      (fun _ => none) 0 (fun _ => none)).resp = ⟨401, "Invalid refresh token"⟩ ∧
    (refreshTokenEndpoint (some "rt") (fun _ => VerifyResult.expired)
      (fun _ => none) 0 (fun _ => none)).resp =
      (refreshTokenEndpoint (some "rt") (fun _ => VerifyResult.invalid)
        (fun _ => none) 0 (fun _ => none)).resp :=
  ⟨rfl, rfl⟩

/-- C2 (amended): the authorization middleware distinguishes the cases —
expired yields 401 "Token expired", any other signature failure 403 "Invalid
token" — while `/auth/refresh` does not: there every signature failure,
expired or otherwise, yields 401 "Invalid refresh token" with no token
issued. -/
theorem c2_expired_distinction_amended (t : String)
    (verify : String → VerifyResult) (findActiveUser : String → Option AuthUser)
    (findRecord : String → Option TokenRecord) (now : Nat) :
    (verify t = VerifyResult.expired →
      authenticateToken (some t) verify findActiveUser =
        AuthOutcome.reject ⟨401, "Token expired"⟩) ∧
    (verify t = VerifyResult.invalid →
      authenticateToken (some t) verify findActiveUser =
        AuthOutcome.reject ⟨403, "Invalid token"⟩) ∧
    ((verify t = VerifyResult.expired ∨ verify t = VerifyResult.invalid) →
      refreshTokenEndpoint (some t) verify findRecord now findActiveUser =
        ⟨⟨401, "Invalid refresh token"⟩, none⟩) := by
  refine ⟨fun h => ?_, fun h => ?_, fun h => ?_⟩
  · simp [authenticateToken, h]
  · simp [authenticateToken, h]
  · rcases h with h | h <;> simp [refreshTokenEndpoint, h]

/-- Witness for C2 (amended), at concrete verify outcomes. -/
theorem c2_witness :
    authenticateToken (some "t") (fun _ => VerifyResult.expired) (fun _ => none) =
      AuthOutcome.reject ⟨401, "Token expired"⟩ ∧
    authenticateToken (some "t") (fun _ => VerifyResult.invalid) (fun _ => none) =
      AuthOutcome.reject ⟨403, "Invalid token"⟩ ∧
    refreshTokenEndpoint (some "t") (fun _ => VerifyResult.invalid)
      (fun _ => none) 0 (fun _ => none) = ⟨⟨401, "Invalid refresh token"⟩, none⟩ :=
  ⟨(c2_expired_distinction_amended "t" (fun _ => VerifyResult.expired)
      (fun _ => none) (fun _ => none) 0).1 rfl,
   (c2_expired_distinction_amended "t" (fun _ => VerifyResult.invalid)
      (fun _ => none) (fun _ => none) 0).2.1 rfl,
   (c2_expired_distinction_amended "t" (fun _ => VerifyResult.invalid)
      (fun _ => none) (fun _ => none) 0).2.2 (Or.inr rfl)⟩

/-- C3: a successful fetch of a publicly visible (status "active") message
increments its stored view count by exactly 1 and reports the new stored
value in the response; for a fetched message that is not active the stored
row is left unchanged (the increment only occurs for active messages). -/
theorem c3_view_count_increment (slug : String) (fetched : Option Msg)
    (user : Option UserCtx) (m : Msg) (hf : fetched = some m) :
    (m.status = "active" →
      (getMessageBySlug slug fetched user).resp.status = 200 →
      ∃ m', (getMessageBySlug slug fetched user).stored = some m' ∧
        m'.viewCount = m.viewCount + 1 ∧
        (getMessageBySlug slug fetched user).respViewCount = some m'.viewCount) ∧
    (m.status ≠ "active" → (getMessageBySlug slug fetched user).stored = fetched) := by
  subst hf
  constructor
  · intro hact h200
    unfold getMessageBySlug at h200 ⊢
    by_cases hs : slug = ""
    · simp [hs] at h200
    · simp only [if_neg hs] at h200 ⊢
      have hcond : (m.status != "active") = false := by simp [hact]
      simp only [hcond, Bool.false_and, if_neg Bool.false_ne_true] at h200 ⊢
      have hbeq : (m.status == "active") = true := by simp [hact]
      simp only [hbeq, if_pos rfl]
      exact ⟨⟨m.id, m.title, m.slug, m.status, m.authorId, m.viewCount + 1⟩, rfl, rfl, rfl⟩
  · intro hne
    unfold getMessageBySlug
    by_cases hs : slug = ""
    · simp [hs]
    · simp only [if_neg hs]
      have hbeq : (m.status == "active") = false := by simp [hne]
      split
      · rfl
      · simp [hbeq]

/-- Witness for C3: fetching the active message with view count 5 yields a
stored count of 6 and reports 6. -/
theorem c3_witness :
    ∃ m', (getMessageBySlug "t" (some ⟨"id1", "T", "t", "active", "a1", 5⟩) none).stored =
        some m' ∧
      m'.viewCount = 5 + 1 ∧
      (getMessageBySlug "t" (some ⟨"id1", "T", "t", "active", "a1", 5⟩) none).respViewCount =
        some m'.viewCount :=
  (c3_view_count_increment "t" (some ⟨"id1", "T", "t", "active", "a1", 5⟩) none
    ⟨"id1", "T", "t", "active", "a1", 5⟩ rfl).1 rfl (by decide)

/-- C4 counterexample: a list request with `limit=99999` is rejected with 400
by the `validatePagination` middleware before any query executes; it is not
clamped into an executed query with limit 100. -/
theorem c4_counterexample :
    getMessagesPipeline none (some 99999) none none =
      ListOutcome.validationError ⟨400, "Validation failed"⟩ ∧
    getMessagesPipeline none (some 99999) none none ≠
      ListOutcome.executed "created_at" "desc" 100 1 := by
  decide

/-- C4 (amended): every list request that reaches query execution runs with a
page size of at most 100; a request with `limit=99999` is rejected with 400
by pagination validation before reaching the controller, whose own clamp
`Math.min(limit, 100)` would cap it at 100 if it were reached. -/
theorem c4_limit_clamp_amended (pageQ limitQ : Option Int) (sortQ orderQ : Option String)
    (s o : String) (L pg : Int) :
    (getMessagesPipeline pageQ limitQ sortQ orderQ = ListOutcome.executed s o L pg →
      L ≤ 100) ∧
    (getUsersPipeline pageQ limitQ sortQ orderQ = ListOutcome.executed s o L pg →
      L ≤ 100) ∧
    getMessagesPipeline none (some 99999) none none =
      ListOutcome.validationError ⟨400, "Validation failed"⟩ ∧
    limitClamp (some 99999) = 100 := by
  refine ⟨fun h => ?_, fun h => ?_, by decide, by decide⟩
  · unfold getMessagesPipeline at h
    split at h
    · cases h
      exact min_le_right _ _
    · cases h
  · unfold getUsersPipeline at h
    split at h
    · cases h
      exact min_le_right _ _
    · cases h

/-- Witness for C4 (amended): an in-range request executes with its own
limit, which is at most 100. -/
theorem c4_witness :
    getMessagesPipeline none (some 50) none none =
      ListOutcome.executed "created_at" "desc" 50 1 ∧ (50 : Int) ≤ 100 :=
  ⟨by decide,
   (c4_limit_clamp_amended none (some 50) none none "created_at" "desc" 50 1).1 (by decide)⟩

/-- C7: the sort column `getUsers` would use always comes from its static
allow-list and is never `password_hash`; a request with `sort=password_hash`
is rejected with 400 by the validation middleware (so no query executes), and
the controller fallback for an unrecognized sort is the default
(`created_at`, with order defaulting to descending). -/
theorem c7_sort_allowlist (pageQ limitQ : Option Int) (sortQ orderQ : Option String)
    (s o : String) (L pg : Int) :
    sortColumn getUsersAllowedSortFields sortQ ∈ getUsersAllowedSortFields ∧
    sortColumn getUsersAllowedSortFields sortQ ≠ "password_hash" ∧
    (getUsersPipeline pageQ limitQ sortQ orderQ = ListOutcome.executed s o L pg →
      s ∈ getUsersAllowedSortFields ∧ s ≠ "password_hash") ∧
    getUsersPipeline pageQ limitQ (some "password_hash") orderQ =
      ListOutcome.validationError ⟨400, "Validation failed"⟩ ∧
    sortColumn getUsersAllowedSortFields (some "password_hash") = "created_at" ∧
    orderDir none = "desc" := by
  have hmem : sortColumn getUsersAllowedSortFields sortQ ∈ getUsersAllowedSortFields := by
    cases sortQ with
    | none => simp [sortColumn, getUsersAllowedSortFields]
    | some s0 =>
      simp only [sortColumn]
      split
      · next hc => exact List.mem_of_elem_eq_true hc
      · simp [getUsersAllowedSortFields]
  have hne : sortColumn getUsersAllowedSortFields sortQ ≠ "password_hash" := by
    intro hEq
    rw [hEq] at hmem
    revert hmem
    decide
  refine ⟨hmem, hne, fun h => ?_, ?_, by decide, by decide⟩
  · unfold getUsersPipeline at h
    split at h
    · cases h
      exact ⟨hmem, hne⟩
    · cases h
  · unfold getUsersPipeline validatePagination
    have : validSortParam (some "password_hash") = false := by decide
    simp [this]

/-- Witness for C7: a request sorting by `created_at` executes with that sort
column, which is on the allow-list and is not `password_hash`; the
`password_hash` request is rejected by validation. -/
theorem c7_witness :
    ("created_at" ∈ getUsersAllowedSortFields ∧ "created_at" ≠ "password_hash") ∧
    getUsersPipeline none none (some "password_hash") none =
      ListOutcome.validationError ⟨400, "Validation failed"⟩ :=
  ⟨(c7_sort_allowlist none none (some "created_at") none "created_at" "desc" 10 1).2.2.1
      (by decide),
   (c7_sort_allowlist none none (some "password_hash") none "x" "desc" 10 1).2.2.2.1⟩

/-- C5: the candidate slug is derived by lowercasing, stripping characters
outside `[a-z0-9 -]`, collapsing whitespace to hyphens and collapsing
repeated hyphens (so the result uses only lowercase letters, digits and
hyphens); when two then three creates normalize to the same slug the second
stores the candidate suffixed `-1` and the third the candidate suffixed `-2`;
and the uniquification loop always terminates on a slug not already taken,
because its counter strictly increases through pairwise-distinct candidates. -/
theorem c5_slug_uniquification (t1 t2 t3 : String) (db : List String) (s : String)
    (h1 : generateSlug t1 = s) (h2 : generateSlug t2 = s) (h3 : generateSlug t3 = s)
    (hdb0 : s ∉ db) (hdb1 : (s ++ "-1") ∉ db) (hdb2 : (s ++ "-2") ∉ db) :
    (∀ c ∈ s.data, c.isLower = true ∨ c.isDigit = true ∨ c = '-') ∧
    (createMessageSlug db t1).1 = s ∧
    (createMessageSlug (createMessageSlug db t1).2 t2).1 = s ++ "-1" ∧
    (createMessageSlug (createMessageSlug (createMessageSlug db t1).2 t2).2 t3).1 =
      s ++ "-2" ∧
    (∀ taken slug, uniquifySlug taken slug ∉ taken) := by
  have hfirst : (createMessageSlug db t1).1 = s := by
    simp only [createMessageSlug, h1]
    exact uniquifySlug_fresh db s hdb0
  have hdbeq : (createMessageSlug db t1).2 = s :: db := by
    simp only [createMessageSlug, h1, uniquifySlug_fresh db s hdb0]
  have hsecond : (createMessageSlug (createMessageSlug db t1).2 t2).1 = s ++ "-1" := by
    rw [hdbeq]
    simp only [createMessageSlug, h2]
    exact uniquifySlug_second db s hdb1
  have hdbeq2 : (createMessageSlug (createMessageSlug db t1).2 t2).2 =
      (s ++ "-1") :: s :: db := by
    rw [hdbeq]
    simp only [createMessageSlug, h2, uniquifySlug_second db s hdb1]
  refine ⟨?_, hfirst, hsecond, ?_, fun taken slug => uniquifySlug_not_mem taken slug⟩
  · intro c hc
    rw [← h1] at hc
    exact generateSlug_charset t1 c hc
  · rw [hdbeq2]
    simp only [createMessageSlug, h3]
    exact uniquifySlug_third db s hdb2

/-- Witness for C5: three titles all normalizing to `hello-world`, created
against an empty table, store `hello-world`, `hello-world-1`,
`hello-world-2` in turn. -/
theorem c5_witness :
    (createMessageSlug [] "Hello World").1 = "hello-world" ∧
    (createMessageSlug (createMessageSlug [] "Hello World").2 "Hello, World!").1 =
      "hello-world" ++ "-1" ∧
    (createMessageSlug (createMessageSlug (createMessageSlug [] "Hello World").2
      "Hello, World!").2 "HELLO WORLD").1 = "hello-world" ++ "-2" := by
  have h := c5_slug_uniquification "Hello World" "Hello, World!" "HELLO WORLD" []
    "hello-world" (by decide) (by decide) (by decide) (by decide) (by decide) (by decide)
  exact ⟨h.2.1, h.2.2.1, h.2.2.2.1⟩

/-- C6: for a caller who is neither admin nor moderator, the role-gated
fields (`is_featured`, `is_pinned`, `status` on messages; `role`, `status` on
users) are silently dropped: the handler's outcome is identical to that for
the same payload with those fields absent (so their presence alone never
causes a rejection), and no generated update ever contains them. -/
theorem c6_role_gated_fields_ignored
    (db : List String) (fetched : Option Msg) (caller : UserCtx) (body : MsgUpdateBody)
    (idIsUuid : Bool) (targetId : String) (existing : Option UserRow)
    (usernameTakenByOther : String → Bool) (ubody : UserUpdateBody)
    (hrole1 : caller.role ≠ "admin") (hrole2 : caller.role ≠ "moderator") :
    updateMessage db fetched caller body =
      updateMessage db fetched caller
        ⟨body.title, body.content, body.excerpt, body.categoryId, body.tags,
          none, none, none⟩ ∧
    (∀ fields tags2, updateMessage db fetched caller body =
        UpdateMsgOutcome.updated fields tags2 →
      ∀ kv ∈ fields, kv.1 ≠ "is_featured" ∧ kv.1 ≠ "is_pinned" ∧ kv.1 ≠ "status") ∧
    updateUser idIsUuid targetId existing usernameTakenByOther caller ubody =
      updateUser idIsUuid targetId existing usernameTakenByOther caller
        ⟨ubody.firstName, ubody.lastName, ubody.username, ubody.bio, ubody.avatarUrl,
          none, none⟩ ∧
    (∀ fields, updateUser idIsUuid targetId existing usernameTakenByOther caller ubody =
        UpdateUserOutcome.updated fields →
      ∀ kv ∈ fields, kv.1 ≠ "role" ∧ kv.1 ≠ "status") := by
  have hgate : (caller.role == "admin" || caller.role == "moderator") = false := by
    simp [hrole1, hrole2]
  have hadm : (caller.role == "admin") = false := by
    simp [hrole1]
  refine ⟨?_, ?_, ?_, ?_⟩
  · cases fetched with
    | none => rfl
    | some m =>
      simp only [updateMessage]
      rw [← buildMessageUpdates_strip db m body caller.role hgate]
  · intro fields tags2 h
    cases fetched with
    | none => simp [updateMessage] at h
    | some m =>
      simp only [updateMessage] at h
      split at h
      · split at h
        · cases h
        · injection h with h1 h2
          intro kv hkv
          rw [← h1] at hkv
          rcases buildMessageUpdates_lowpriv_keys db m body caller.role hgate kv hkv with
            hk | hk | hk | hk | hk <;> rw [hk] <;>
              exact ⟨by decide, by decide, by decide⟩
      · cases h
  · cases existing with
    | none => rfl
    | some ex =>
      simp only [updateUser, hadm]
      rw [← buildUserUpdates_strip ubody]
      rfl
  · intro fields h
    unfold updateUser at h
    split at h
    · cases h
    · split at h
      · cases h
      · split at h
        · cases h
        · split at h
          · split at h
            · cases h
            · injection h with h1
              rw [hadm] at h1
              intro kv hkv
              rw [← h1] at hkv
              rcases buildUserUpdates_lowpriv_keys ubody kv hkv with
                hk | hk | hk | hk | hk <;> rw [hk] <;> exact ⟨by decide, by decide⟩
          · cases h

/-- Witness for C6: a plain user updating their own message with a payload
containing `content` plus the gated `isFeatured`, `isPinned`, `status` gets
the same outcome as with the gated fields absent. -/
theorem c6_witness :
    updateMessage [] (some ⟨"m1", "T", "t", "active", "u1", 0⟩) ⟨"u1", "user"⟩
      ⟨none, some "new content", none, none, none, some true, some true, some "hidden"⟩ =
    updateMessage [] (some ⟨"m1", "T", "t", "active", "u1", 0⟩) ⟨"u1", "user"⟩
      ⟨none, some "new content", none, none, none, none, none, none⟩ :=
  (c6_role_gated_fields_ignored [] (some ⟨"m1", "T", "t", "active", "u1", 0⟩)
    ⟨"u1", "user"⟩
    ⟨none, some "new content", none, none, none, some true, some true, some "hidden"⟩
    true "u1" (some ⟨"u1", "alice"⟩) (fun _ => false)
    ⟨none, none, none, none, none, none, none⟩ (by decide) (by decide)).1

/-- C10: whatever the payload and the caller's role, the `SET` clause
generated by `PUT /api/users/:id` draws its columns only from the user-update
allow-list (plus the fixed `updated_at` appended in the query text), which
contains neither `email` nor `password_hash`, so those columns are never
written by this endpoint. -/
theorem c10_user_update_frame (idIsUuid : Bool) (targetId : String)
    (existing : Option UserRow) (usernameTakenByOther : String → Bool)
    (caller : UserCtx) (body : UserUpdateBody) (fields : List (String × FieldVal))
    (h : updateUser idIsUuid targetId existing usernameTakenByOther caller body =
      UpdateUserOutcome.updated fields) :
    ∀ kv ∈ fields, kv.1 ∈ ALLOWED_USER_UPDATE_FIELDS ∧ kv.1 ≠ "email" ∧
      kv.1 ≠ "password_hash" := by
  unfold updateUser at h
  split at h
  · cases h
  · split at h
    · cases h
    · split at h
      · cases h
      · split at h
        · split at h
          · cases h
          · injection h with h1
            intro kv hkv
            rw [← h1] at hkv
            have hmem := mem_buildUserUpdates_keys body (caller.role == "admin") kv hkv
            refine ⟨hmem, ?_, ?_⟩
            · intro hk
              rw [hk] at hmem
              revert hmem
              decide
            · intro hk
              rw [hk] at hmem
              revert hmem
              decide
        · cases h

/-- Witness for C10: an admin updating a user's bio and role generates a SET
clause whose columns are all allow-listed, hence never email or
password_hash. -/
theorem c10_witness :
    ("bio", FieldVal.s "hi").1 ∈ ALLOWED_USER_UPDATE_FIELDS ∧
    ("bio", FieldVal.s "hi").1 ≠ "email" ∧
    ("bio", FieldVal.s "hi").1 ≠ "password_hash" :=
  c10_user_update_frame true "u2" (some ⟨"u2", "alice"⟩) (fun _ => false)
    ⟨"u1", "admin"⟩ ⟨none, none, none, some "hi", none, some "moderator", none⟩
    [("bio", FieldVal.s "hi"), ("role", FieldVal.s "moderator")] (by decide)
    ("bio", FieldVal.s "hi") (by decide)

end Visigence
